import Mathlib

/-!
Shallow embedding of `src/flappy_pygame.py` (a single-file pygame arcade game).

Modelling conventions:
* Python floats are modelled as exact rationals (`ℚ`); the decimal literals of
  the source (`0.45`, `-9.5`) are exactly representable, so the arithmetic of
  the simulation is mirrored exactly.
* Python ints are `ℤ` (or `ℕ` for the score, which is only ever incremented
  from 0), and Python's truncating `int()` conversion is `pyInt`.
* `pygame.Rect` stores integer coordinates; `colliderect` is the
  normalised strict-overlap test used by pygame.
* Randomness (`random.randint`, `random.random() < 0.5`) is passed in as an
  oracle value; theorems that depend on `randint` bounds take those bounds as
  hypotheses.
* The file system behind the high-score record is an `Option String`
  (`none` = file absent or unreadable).
-/

namespace Flappy

/-! ### Constants (configuration block of the source) -/

def WIDTH : ℤ := 400
def HEIGHT : ℤ := 640
def BIRD_X : ℤ := 80
def BIRD_WIDTH : ℤ := 34
def BIRD_HEIGHT : ℤ := 24
def GRAVITY : ℚ := 0.45
def FLAP_STRENGTH : ℚ := -9.5
def PIPE_WIDTH : ℤ := 70
def PIPE_GAP : ℤ := 150
def PIPE_SPACING : ℤ := 150
def PIPE_SPEED_BASE : ℕ := 3
def FLOOR_HEIGHT : ℤ := 100
def COIN_RADIUS : ℤ := 10
def COIN_BONUS : ℕ := 5
def PARTICLE_LIFETIME : ℤ := 30

/-- Python's `int()` applied to a float: truncation toward zero. -/
def pyInt (q : ℚ) : ℤ := Int.tdiv q.num (q.den : ℤ)

/-- `pygame.Rect` (integer coordinates). -/
structure Rect where
  x : ℤ
  y : ℤ
  w : ℤ
  h : ℤ
deriving DecidableEq

/-- `Rect.colliderect`: pygame's rectangle-overlap test (normalised form used
by the pygame source; for rectangles of positive size this is the usual
strict-overlap test). -/
def colliderect (A B : Rect) : Bool :=
  decide (min A.x (A.x + A.w) < max B.x (B.x + B.w)) &&
  decide (min B.x (B.x + B.w) < max A.x (A.x + A.w)) &&
  decide (min A.y (A.y + A.h) < max B.y (B.y + B.h)) &&
  decide (min B.y (B.y + B.h) < max A.y (A.y + A.h))

/-! ### Bird -/

/-- `class Bird`: `x` is always `BIRD_X` and `w`,`h` are the fixed constants,
so only the mutable fields are carried. -/
structure Bird where
  y : ℚ
  vel : ℚ
  rotation : ℚ
deriving DecidableEq

/-- `Bird.__init__(x, y)`: velocity `0.0`, rotation `0`. -/
def Bird.make (y : ℚ) : Bird := ⟨y, 0, 0⟩

/-- `Bird.flap`: `self.vel = FLAP_STRENGTH` (the sound call is external). -/
def Bird.flap (b : Bird) : Bird := { b with vel := FLAP_STRENGTH }

/-- `Bird.update`: gravity increment, position integration with the
post-increment velocity, rotation clamp. -/
def Bird.update (b : Bird) : Bird :=
  let v := b.vel + GRAVITY
  { y := b.y + v, vel := v, rotation := max (-25) (min 90 (-v * 3)) }

/-- `bird_rect = pygame.Rect(int(bird.x), int(bird.y), bird.w, bird.h)`
(the source truncates the float coordinates; `bird.x` is always `BIRD_X`). -/
def birdRect (b : Bird) : Rect := ⟨BIRD_X, pyInt b.y, BIRD_WIDTH, BIRD_HEIGHT⟩

/-! ### Pipe -/

structure Pipe where
  x : ℤ
  gap_y : ℤ
  passed : Bool
deriving DecidableEq

/-- Lower bound of `random.randint` for `gap_y`: `int(HEIGHT * 0.2)` = 128. -/
def GAP_MIN : ℤ := pyInt ((HEIGHT : ℚ) * 0.2)

/-- Upper bound of `random.randint` for `gap_y`:
`int(HEIGHT - FLOOR_HEIGHT - PIPE_GAP - 20)` = 370. -/
def GAP_MAX : ℤ := HEIGHT - FLOOR_HEIGHT - PIPE_GAP - 20

/-- `Pipe.__init__(x)` with the `randint` draw passed as an oracle value. -/
def Pipe.make (x gap : ℤ) : Pipe := ⟨x, gap, false⟩

/-- `Pipe.update(speed)`: `self.x -= speed`. -/
def Pipe.update (speed : ℕ) (p : Pipe) : Pipe := { p with x := p.x - (speed : ℤ) }

/-- `Pipe.offscreen`: `self.x + self.w < 0`. -/
def Pipe.offscreen (p : Pipe) : Bool := decide (p.x + PIPE_WIDTH < 0)

/-- `Pipe.top_rect`: `Rect(x, 0, w, gap_y)`. -/
def Pipe.top_rect (p : Pipe) : Rect := ⟨p.x, 0, PIPE_WIDTH, p.gap_y⟩

/-- `Pipe.bottom_rect`:
`Rect(x, gap_y + PIPE_GAP, w, HEIGHT - FLOOR_HEIGHT - (gap_y + PIPE_GAP))`. -/
def Pipe.bottom_rect (p : Pipe) : Rect :=
  ⟨p.x, p.gap_y + PIPE_GAP, PIPE_WIDTH, HEIGHT - FLOOR_HEIGHT - (p.gap_y + PIPE_GAP)⟩

/-! ### Coin -/

/-- `class Coin`: radius is the fixed constant; the stored `rect` is always
re-derived from `(x, y)` by the centre setter, so it is kept derived. -/
structure Coin where
  x : ℤ
  y : ℤ
deriving DecidableEq

/-- `Coin.update(speed)`: `self.x -= speed` (the rect re-centres on `(x, y)`). -/
def Coin.update (speed : ℕ) (c : Coin) : Coin := { c with x := c.x - (speed : ℤ) }

/-- `Coin.offscreen`: `self.x + self.radius < 0`. -/
def Coin.offscreen (c : Coin) : Bool := decide (c.x + COIN_RADIUS < 0)

/-- The coin's rect: centred on `(x, y)` with size `2*radius`; the centre
setter puts the corner at `center - size // 2`. -/
def coinRect (c : Coin) : Rect :=
  ⟨c.x - COIN_RADIUS, c.y - COIN_RADIUS, 2 * COIN_RADIUS, 2 * COIN_RADIUS⟩

/-! ### Particle -/

structure Particle where
  x : ℤ
  y : ℤ
  lifetime : ℤ
deriving DecidableEq

/-- `Particle.__init__(x, y)`. -/
def Particle.make (x y : ℤ) : Particle := ⟨x, y, PARTICLE_LIFETIME⟩

/-- `Particle.update`: `lifetime -= 1; y -= 1`. -/
def Particle.update (p : Particle) : Particle :=
  { p with lifetime := p.lifetime - 1, y := p.y - 1 }

/-! ### High-score store -/

/-- ASCII whitespace stripped by Python's `str.strip()` (the contents the
game itself writes are ASCII). -/
def isPySpace (c : Char) : Bool :=
  c = ' ' || c = '\t' || c = '\n' || c = '\r' || c = '\x0b' || c = '\x0c'

/-- `str.strip()`. -/
def pyStrip (s : String) : String :=
  String.mk (((s.data.dropWhile isPySpace).reverse.dropWhile isPySpace).reverse)

/-- Tail of a Python integer literal after its first digit: digits, with
single underscores allowed between digits. -/
def digitTail : List Char → Bool
  | [] => true
  | ['_'] => false
  | '_' :: c :: rest => c.isDigit && digitTail rest
  | c :: rest => c.isDigit && digitTail rest

/-- A valid `digitpart` for Python's `int()`: nonempty, starts with a digit,
underscores only between digits. -/
def digitsOK : List Char → Bool
  | [] => false
  | c :: rest => c.isDigit && digitTail rest

/-- Numeric value of a digit string (underscores skipped). -/
def digitsVal (l : List Char) : ℕ :=
  l.foldl (fun a c => if c = '_' then a else a * 10 + (c.toNat - 48)) 0

/-- Python's `int(str)` on an already-stripped string: optional sign, then a
digit part; anything else raises `ValueError`, modelled as `none`. -/
def pyIntParse : List Char → Option ℤ
  | '+' :: rest => if digitsOK rest then some (digitsVal rest : ℤ) else none
  | '-' :: rest => if digitsOK rest then some (-(digitsVal rest : ℤ)) else none
  | l => if digitsOK l then some (digitsVal l : ℤ) else none

/-- `load_highscore()`: `none` models the file being absent
(`os.path.exists` false) or unreadable (`open`/`read` raising, caught by the
`except`). Otherwise the content is stripped; an empty result falls back to
`int(0)` via `or 0`, and a parse failure is caught by the `except` → 0. -/
def load_highscore : Option String → ℤ
  | none => 0
  | some content =>
      let t := pyStrip content
      if t.data = [] then 0
      else
        match pyIntParse t.data with
        | some n => n
        | none => 0

/-! ### Session state and the per-frame update -/

/-- The values taken by the `state` variable (`'paused'` is listed in a source
comment but pause is a separate boolean). -/
inductive GState where
  | menu
  | playing
  | gameover
deriving DecidableEq

structure GameState where
  bird : Bird
  pipes : List Pipe
  coins : List Coin
  particles : List Particle
  score : ℕ
  highscore : ℤ
  state : GState
  paused : Bool
  cooldown : ℕ
deriving DecidableEq

/-- Random draws consumed by one tick: the 50% coin coin-flip, the new pipe's
`gap_y`, and the coin's `y` (each used only if the corresponding spawn
happens). -/
structure TickRand where
  spawnCoin : Bool
  gapY : ℤ
  coinY : ℤ
deriving DecidableEq

/-- `pipe_speed = PIPE_SPEED_BASE + score // 10`. -/
def pipeSpeed (score : ℕ) : ℕ := PIPE_SPEED_BASE + score / 10

/-- Spawn condition: `len(pipes) == 0 or pipes[-1].x < WIDTH - PIPE_SPACING`. -/
def shouldSpawn (pipes : List Pipe) : Bool :=
  match pipes.getLast? with
  | none => true
  | some p => decide (p.x < WIDTH - PIPE_SPACING)

/-- The spawn block: append a pipe at `WIDTH + 20`, and with probability 1/2
(oracle `r.spawnCoin`) also a coin at `WIDTH + 20` with oracle height. -/
def spawnStep (r : TickRand) (pipes : List Pipe) (coins : List Coin) :
    List Pipe × List Coin :=
  if shouldSpawn pipes then
    (pipes ++ [Pipe.make (WIDTH + 20) r.gapY],
     if r.spawnCoin then coins ++ [⟨WIDTH + 20, r.coinY⟩] else coins)
  else (pipes, coins)

/-- Whether the bird rect overlaps a pipe's top or bottom rect. -/
def pipeCollide (bird : Rect) (p : Pipe) : Bool :=
  colliderect bird p.top_rect || colliderect bird p.bottom_rect

/-- The passed-flag update applied to one pipe during the collision pass:
`if not p.passed and p.x + p.w < bird.x: p.passed = True`. -/
def markPassed (bx : ℤ) (p : Pipe) : Pipe :=
  if !p.passed && decide (p.x + PIPE_WIDTH < bx) then { p with passed := true } else p

/-- The pipe loop of the collision pass: accumulates the `hit` flag, flips
passed-flags and increments the score, in list order. -/
def pipesPass (bird : Rect) (bx : ℤ) : List Pipe → Bool → ℕ → List Pipe × Bool × ℕ
  | [], hit, sc => ([], hit, sc)
  | p :: rest, hit, sc =>
    let hit2 := hit || pipeCollide bird p
    if !p.passed && decide (p.x + PIPE_WIDTH < bx) then
      let r := pipesPass bird bx rest hit2 (sc + 1)
      ({ p with passed := true } :: r.1, r.2.1, r.2.2)
    else
      let r := pipesPass bird bx rest hit2 sc
      (p :: r.1, r.2.1, r.2.2)

/-- The coin loop of the collision pass: on overlap the coin is dropped, the
bonus is added, and 5 particles are appended at the coin's position. -/
def coinsPass (bird : Rect) : List Coin → ℕ → List Particle →
    List Coin × ℕ × List Particle
  | [], sc, parts => ([], sc, parts)
  | c :: rest, sc, parts =>
    if colliderect bird (coinRect c) then
      coinsPass bird rest (sc + COIN_BONUS) (parts ++ List.replicate 5 (Particle.make c.x c.y))
    else
      let r := coinsPass bird rest sc parts
      (c :: r.1, r.2.1, r.2.2)

/-- The bird after `bird.update()` at the top of the tick. -/
def movedBird (s : GameState) : Bird := s.bird.update

/-- The pipes at the collision pass: after the spawn block, the per-pipe
`update(pipe_speed)`, and the off-screen prune. -/
def movedPipes (s : GameState) (r : TickRand) : List Pipe :=
  ((spawnStep r s.pipes s.coins).1.map (Pipe.update (pipeSpeed s.score))).filter
    (fun p => !p.offscreen)

/-- The coins at the collision pass: after the spawn block, the per-coin
`update(pipe_speed)`, and the off-screen prune. -/
def movedCoins (s : GameState) (r : TickRand) : List Coin :=
  ((spawnStep r s.pipes s.coins).2.map (Coin.update (pipeSpeed s.score))).filter
    (fun c => !c.offscreen)

/-- The particles after their update and the lifetime prune. -/
def movedParticles (s : GameState) : List Particle :=
  (s.particles.map Particle.update).filter (fun p => decide (0 < p.lifetime))

/-- Result of the pipe collision/score loop on this tick. -/
def pipeResult (s : GameState) (r : TickRand) : List Pipe × Bool × ℕ :=
  pipesPass (birdRect (movedBird s)) BIRD_X (movedPipes s r) false s.score

/-- Result of the coin collision loop on this tick (runs on the score left by
the pipe loop and the already-updated particle list). -/
def coinResult (s : GameState) (r : TickRand) : List Coin × ℕ × List Particle :=
  coinsPass (birdRect (movedBird s)) (movedCoins s r) (pipeResult s r).2.2 (movedParticles s)

/-- `bird.y + bird.h >= HEIGHT - FLOOR_HEIGHT or bird.y <= 0`. -/
def floorCeilHit (b : Bird) : Bool :=
  decide ((HEIGHT : ℚ) - (FLOOR_HEIGHT : ℚ) ≤ b.y + (BIRD_HEIGHT : ℚ)) || decide (b.y ≤ 0)

/-- The tick's final `hit` flag. -/
def fatalHit (s : GameState) (r : TickRand) : Bool :=
  (pipeResult s r).2.1 || floorCeilHit (movedBird s)

/-- One simulation tick: the whole `if state == 'playing' and not paused`
block of the main loop. -/
def tick (s : GameState) (r : TickRand) : GameState :=
  { bird := movedBird s
    pipes := (pipeResult s r).1
    coins := (coinResult s r).1
    particles := (coinResult s r).2.2
    score := (coinResult s r).2.1
    highscore :=
      if fatalHit s r then
        if ((coinResult s r).2.1 : ℤ) > s.highscore then ((coinResult s r).2.1 : ℤ)
        else s.highscore
      else s.highscore
    state := if fatalHit s r then GState.gameover else s.state
    paused := s.paused
    cooldown := if 0 < s.cooldown then s.cooldown - 1 else s.cooldown }

/-- The per-frame update: the tick runs only while `playing` and unpaused. -/
def frameUpdate (s : GameState) (r : TickRand) : GameState :=
  if s.state = GState.playing ∧ s.paused = false then tick s r else s

/-! ### Reset and the primary action -/

/-- `reset_game()`: fresh bird at `HEIGHT//2 - BIRD_HEIGHT//2`, two pipes at
`WIDTH + i*PIPE_SPACING + 200`, empty coins/particles, zero score, state
`playing`, pause cleared. It does not touch the lockout counter or the high
score; the gap draws are oracle values. -/
def reset_game (s : GameState) (g1 g2 : ℤ) : GameState :=
  { s with
    bird := Bird.make ((HEIGHT / 2 - BIRD_HEIGHT / 2 : ℤ) : ℚ)
    pipes := [Pipe.make (WIDTH + 0 * PIPE_SPACING + 200) g1,
              Pipe.make (WIDTH + 1 * PIPE_SPACING + 200) g2]
    coins := []
    particles := []
    score := 0
    state := GState.playing
    paused := false }

/-- The primary action (SPACE/UP keydown or left click): menu/game-over
restart with the lockout counter armed to 10, or a flap while playing,
unpaused, with the lockout expired. -/
def primaryAction (s : GameState) (g1 g2 : ℤ) : GameState :=
  if s.state = GState.menu then { reset_game s g1 g2 with cooldown := 10 }
  else if s.state = GState.playing ∧ s.cooldown = 0 ∧ s.paused = false then
    { s with bird := s.bird.flap }
  else if s.state = GState.gameover then { reset_game s g1 g2 with cooldown := 10 }
  else s

/-! ### Characterisation of the collision passes -/

/-- The pipe loop of the collision pass, characterised: it marks every pipe
through `markPassed`, ORs the per-pipe overlap tests into the hit flag, and
adds one point per newly passed pipe. -/
theorem pipesPass_spec (bird : Rect) (bx : ℤ) (l : List Pipe) :
    ∀ (hit : Bool) (sc : ℕ),
    pipesPass bird bx l hit sc =
      (l.map (markPassed bx),
       hit || l.any (fun p => pipeCollide bird p),
       sc + (l.filter (fun p => !p.passed && decide (p.x + PIPE_WIDTH < bx))).length) := by
  induction l with
  | nil => intro hit sc; simp [pipesPass]
  | cons p rest ih =>
    intro hit sc
    by_cases h : (!p.passed && decide (p.x + PIPE_WIDTH < bx)) = true
    · simp [pipesPass, h, ih, markPassed, Bool.or_assoc]
      omega
    · simp [pipesPass, h, ih, markPassed, Bool.or_assoc]

/-- The coin loop of the collision pass, characterised: surviving coins are
exactly the non-overlapping ones, the score grows by the bonus per collected
coin, and 5 particles are appended at each collected coin's position. -/
theorem coinsPass_spec (bird : Rect) (l : List Coin) :
    ∀ (sc : ℕ) (parts : List Particle),
    coinsPass bird l sc parts =
      (l.filter (fun c => !colliderect bird (coinRect c)),
       sc + COIN_BONUS * (l.filter (fun c => colliderect bird (coinRect c))).length,
       parts ++ (l.filter (fun c => colliderect bird (coinRect c))).flatMap
         (fun c => List.replicate 5 (Particle.make c.x c.y))) := by
  induction l with
  | nil => intro sc parts; simp [coinsPass]
  | cons c rest ih =>
    intro sc parts
    by_cases h : colliderect bird (coinRect c) = true
    · simp [coinsPass, h, ih]
      ring
    · simp [coinsPass, h, ih]

/-! ### Claim theorems -/

/-- C1: on a per-tick update executed while the state is `playing` and not
paused, the state is `gameover` at the end of the tick if and only if, at the
collision pass, the bird's box overlaps some live pipe's top or bottom
region, or the bird's bottom edge is at or below the floor line, or its top
edge is at or above the ceiling; no other condition causes the transition. -/
theorem C1_gameover_iff (s : GameState) (r : TickRand)
    (h1 : s.state = GState.playing) (h2 : s.paused = false) :
    ((frameUpdate s r).state = GState.gameover ↔
      ((movedPipes s r).any (fun p => pipeCollide (birdRect (movedBird s)) p) = true
       ∨ (HEIGHT : ℚ) - (FLOOR_HEIGHT : ℚ) ≤ (movedBird s).y + (BIRD_HEIGHT : ℚ)
       ∨ (movedBird s).y ≤ 0)) := by
  have hpipe : (pipeResult s r).2.1
      = (movedPipes s r).any (fun p => pipeCollide (birdRect (movedBird s)) p) := by
    rw [pipeResult, pipesPass_spec]
    simp
  have hstate : (frameUpdate s r).state
      = (if fatalHit s r = true then GState.gameover else s.state) := by
    simp [frameUpdate, h1, h2, tick]
  rw [hstate]
  by_cases hfat : fatalHit s r = true
  · rw [if_pos hfat]
    refine iff_of_true rfl ?_
    rw [fatalHit, hpipe] at hfat
    simp only [floorCeilHit, Bool.or_eq_true, decide_eq_true_eq] at hfat
    tauto
  · have hfat' : fatalHit s r = false := Bool.eq_false_iff.mpr hfat
    rw [if_neg hfat, h1]
    refine iff_of_false (by decide) ?_
    rw [fatalHit, hpipe] at hfat'
    simp only [floorCeilHit, Bool.or_eq_false_iff, decide_eq_false_iff_not] at hfat'
    intro hc
    rcases hc with hc | hc | hc
    · rw [hfat'.1] at hc
      exact Bool.false_ne_true hc
    · exact hfat'.2.1 hc
    · exact hfat'.2.2 hc

/-- A playing state whose bird is about to sink into the floor. -/
def gsFloor : GameState :=
  { bird := ⟨600, 0, 0⟩, pipes := [], coins := [], particles := [],
    score := 0, highscore := 0, state := GState.playing, paused := false, cooldown := 0 }

/-- Oracle draws for the witness ticks. -/
def rand0 : TickRand := ⟨false, 200, 300⟩

/-- Witness for C1: the floor disjunct forces the game-over transition. -/
theorem C1_gameover_iff_witness : (frameUpdate gsFloor rand0).state = GState.gameover :=
  (C1_gameover_iff gsFloor rand0 rfl rfl).mpr
    (Or.inr (Or.inl (by
      norm_num [movedBird, Bird.update, gsFloor, HEIGHT, FLOOR_HEIGHT, BIRD_HEIGHT, GRAVITY])))

/-- C2 counterexample: the claim says every content that is not a
non-negative integer loads as 0, but the source's `int(...)` parses a
negative integer and returns it unchanged: `"-5"` loads as `-5`, not `0`. -/
theorem C2_counterexample :
    load_highscore (some "-5") = -5 ∧ load_highscore (some "-5") ≠ 0 := by
  decide

/-- C2 (amended): the load operation returns 0 when the record is absent or
unreadable, or when its contents do not parse as an *integer* (Python `int`
grammar), and it never raises; contents that parse as an integer — including
a negative one — are returned as that integer. -/
theorem C2_amended_load (t : String) :
    load_highscore none = 0
    ∧ (pyIntParse (pyStrip t).data = none → load_highscore (some t) = 0)
    ∧ (∀ n : ℤ, pyIntParse (pyStrip t).data = some n → load_highscore (some t) = n) := by
  refine ⟨rfl, ?_, ?_⟩
  · intro h
    by_cases he : (pyStrip t).data = []
    · simp [load_highscore, he]
    · simp [load_highscore, he, h]
  · intro n h
    have he : ¬((pyStrip t).data = []) := by
      intro he
      rw [he] at h
      rw [show pyIntParse [] = none from rfl] at h
      exact Option.noConfusion h
    simp [load_highscore, he, h]

/-- Witness for C2 (amended): a non-integer content loads as 0 and an
integer content loads as its value. -/
theorem C2_amended_load_witness :
    load_highscore (some "abc") = 0 ∧ load_highscore (some " 12 ") = 12 :=
  ⟨(C2_amended_load "abc").2.1 (by decide),
   (C2_amended_load " 12 ").2.2 12 (by decide)⟩

/-- C3: after `n` unflapped ticks the velocity is `v0 + n·GRAVITY`; the
position update uses the post-increment velocity and the rotation is the
clamp of `-vel * 3` into `[-25, 90]`. -/
theorem C3_velocity_integration (b : Bird) (n : ℕ) :
    (Bird.update^[n] b).vel = b.vel + n * GRAVITY
    ∧ (Bird.update b).y = b.y + (b.vel + GRAVITY)
    ∧ (Bird.update b).rotation = max (-25) (min 90 (-(b.vel + GRAVITY) * 3)) := by
  refine ⟨?_, rfl, rfl⟩
  induction n with
  | zero => simp
  | succ k ih =>
    rw [Function.iterate_succ_apply']
    simp [Bird.update, ih]
    ring

/-- C4: in the collision pass every pipe goes through `markPassed`, the score
grows by exactly the number of newly passed pipes, a pipe's flag ends true
exactly when it was already true or its right edge is strictly left of the
bird's x, and an already-passed pipe is left untouched (so it never scores
again and the flag flips at most once, on the first pass where the condition
holds). -/
theorem C4_passed_flag (bird : Rect) (bx : ℤ) (l : List Pipe) (hit : Bool) (sc : ℕ) :
    (pipesPass bird bx l hit sc).1 = l.map (markPassed bx)
    ∧ (pipesPass bird bx l hit sc).2.2
        = sc + (l.filter (fun p => !p.passed && decide (p.x + PIPE_WIDTH < bx))).length
    ∧ (∀ p : Pipe, ((markPassed bx p).passed = true ↔ (p.passed = true ∨ p.x + PIPE_WIDTH < bx)))
    ∧ (∀ p : Pipe, p.passed = true → markPassed bx p = p) := by
  refine ⟨by rw [pipesPass_spec], by rw [pipesPass_spec], ?_, ?_⟩
  · intro p
    by_cases hp : p.passed <;> by_cases hx : p.x + PIPE_WIDTH < bx <;>
      simp [markPassed, hp, hx]
  · intro p hp
    simp [markPassed, hp]

/-- Witness for C4: a pipe whose right edge (70) is left of the bird (80)
gets its flag set. -/
theorem C4_passed_flag_witness : (markPassed 80 ⟨0, 200, false⟩).passed = true :=
  ((C4_passed_flag ⟨0, 0, 0, 0⟩ 80 [] false 0).2.2.1 ⟨0, 200, false⟩).mpr (Or.inr (by decide))

/-- C5: the scroll speed is `PIPE_SPEED_BASE + score / 10` (integer
division), hence a non-decreasing step function of the score with
`pipeSpeed 0 = pipeSpeed 9 = base` and `pipeSpeed 10 = base + 1`. -/
theorem C5_scroll_speed :
    pipeSpeed 0 = PIPE_SPEED_BASE ∧ pipeSpeed 9 = PIPE_SPEED_BASE
    ∧ pipeSpeed 10 = PIPE_SPEED_BASE + 1
    ∧ (∀ sc : ℕ, pipeSpeed sc = PIPE_SPEED_BASE + sc / 10)
    ∧ (∀ s1 s2 : ℕ, s1 ≤ s2 → pipeSpeed s1 ≤ pipeSpeed s2) := by
  refine ⟨rfl, rfl, rfl, fun sc => rfl, fun s1 s2 h => ?_⟩
  exact Nat.add_le_add_left (Nat.div_le_div_right h) PIPE_SPEED_BASE

/-- Witness for C5: monotonicity at a concrete pair of scores. -/
theorem C5_scroll_speed_witness : pipeSpeed 7 ≤ pipeSpeed 23 :=
  C5_scroll_speed.2.2.2.2 7 23 (by decide)

/-- C6: in the coin pass, exactly the coins overlapping the bird's box are
removed, each adds exactly `COIN_BONUS` to the score, and each appends
exactly 5 particles at its position at collection time; non-overlapping coins
survive unchanged. -/
theorem C6_coin_collection (bird : Rect) (l : List Coin) (sc : ℕ) (parts : List Particle) :
    (coinsPass bird l sc parts).1 = l.filter (fun c => !colliderect bird (coinRect c))
    ∧ (coinsPass bird l sc parts).2.1
        = sc + COIN_BONUS * (l.filter (fun c => colliderect bird (coinRect c))).length
    ∧ (coinsPass bird l sc parts).2.2
        = parts ++ (l.filter (fun c => colliderect bird (coinRect c))).flatMap
            (fun c => List.replicate 5 (Particle.make c.x c.y))
    ∧ (∀ c ∈ l, colliderect bird (coinRect c) = true → c ∉ (coinsPass bird l sc parts).1)
    ∧ (∀ c ∈ l, colliderect bird (coinRect c) = false → c ∈ (coinsPass bird l sc parts).1) := by
  refine ⟨by rw [coinsPass_spec], by rw [coinsPass_spec], by rw [coinsPass_spec], ?_, ?_⟩
  · intro c hc hcol
    rw [coinsPass_spec]
    simp [List.mem_filter, hcol]
  · intro c hc hcol
    rw [coinsPass_spec]
    simp [List.mem_filter, hc, hcol]

/-- Witness for C6: a coin overlapping the bird box is removed. -/
theorem C6_coin_collection_witness :
    (⟨90, 310⟩ : Coin) ∉ (coinsPass ⟨80, 300, 34, 24⟩ [⟨90, 310⟩] 0 []).1 :=
  (C6_coin_collection ⟨80, 300, 34, 24⟩ [⟨90, 310⟩] 0 []).2.2.2.1 ⟨90, 310⟩ (by decide)
    (by decide)

/-- C7: with the `randint` draw inside its bounds, the gap centre lies in
`[GAP_MIN, GAP_MAX]` (so both pipe segments have non-negative height), the
gap centre is unchanged by every subsequent update and passed-flag mark, and
the top region's height and the bottom region's y are always `gap_y` and
`gap_y + PIPE_GAP`. -/
theorem C7_gap_invariant (x g : ℤ) (h1 : GAP_MIN ≤ g) (h2 : g ≤ GAP_MAX) :
    (GAP_MIN ≤ (Pipe.make x g).gap_y ∧ (Pipe.make x g).gap_y ≤ GAP_MAX)
    ∧ 0 ≤ (Pipe.make x g).top_rect.h
    ∧ 0 ≤ (Pipe.make x g).bottom_rect.h
    ∧ (∀ speeds : List ℕ,
        (speeds.foldl (fun p sp => Pipe.update sp p) (Pipe.make x g)).gap_y = g)
    ∧ (∀ (p : Pipe) (sp : ℕ), (Pipe.update sp p).gap_y = p.gap_y)
    ∧ (∀ (p : Pipe) (bx : ℤ), (markPassed bx p).gap_y = p.gap_y)
    ∧ (∀ p : Pipe, p.top_rect.h = p.gap_y ∧ p.bottom_rect.y = p.gap_y + PIPE_GAP) := by
  have hmin : GAP_MIN = 128 := by
    have h128 : ((HEIGHT : ℤ) : ℚ) * 0.2 = 128 := by norm_num [HEIGHT]
    rw [GAP_MIN, h128]
    decide
  have hmax : GAP_MAX = 370 := by decide
  have hfold : ∀ (sp : List ℕ) (p : Pipe),
      (sp.foldl (fun p s => Pipe.update s p) p).gap_y = p.gap_y := by
    intro sp
    induction sp with
    | nil => intro p; rfl
    | cons a t ih =>
      intro p
      rw [List.foldl_cons]
      exact ih (Pipe.update a p)
  refine ⟨⟨h1, h2⟩, ?_, ?_, fun speeds => hfold speeds _, fun p sp => rfl,
    fun p bx => ?_, fun p => ⟨rfl, rfl⟩⟩
  · show (0 : ℤ) ≤ g
    omega
  · show (0 : ℤ) ≤ HEIGHT - FLOOR_HEIGHT - (g + PIPE_GAP)
    rw [hmax] at h2
    simp only [HEIGHT, FLOOR_HEIGHT, PIPE_GAP]
    omega
  · simp [markPassed]
    split <;> rfl

/-- Witness for C7: a legal draw of 200 is inside the claimed range. -/
theorem C7_gap_invariant_witness :
    GAP_MIN ≤ (Pipe.make 420 200).gap_y ∧ (Pipe.make 420 200).gap_y ≤ GAP_MAX :=
  (C7_gap_invariant 420 200 (by norm_num [GAP_MIN, HEIGHT, pyInt]) (by decide)).1

/-- C8: the primary action from `menu` or `gameover` performs the full reset:
zero score, a fresh bird vertically centred on the screen, exactly two pipes
past the right screen edge, empty coin and particle lists, state `playing`
with pause cleared, and the lockout counter set to 10. -/
theorem C8_reset (s : GameState) (g1 g2 : ℤ)
    (h : s.state = GState.menu ∨ s.state = GState.gameover) :
    (primaryAction s g1 g2).score = 0
    ∧ (primaryAction s g1 g2).bird = Bird.make ((HEIGHT / 2 - BIRD_HEIGHT / 2 : ℤ) : ℚ)
    ∧ 2 * (primaryAction s g1 g2).bird.y + (BIRD_HEIGHT : ℚ) = (HEIGHT : ℚ)
    ∧ (primaryAction s g1 g2).bird.vel = 0
    ∧ (primaryAction s g1 g2).pipes.length = 2
    ∧ (∀ p ∈ (primaryAction s g1 g2).pipes, WIDTH < p.x)
    ∧ (primaryAction s g1 g2).coins = []
    ∧ (primaryAction s g1 g2).particles = []
    ∧ (primaryAction s g1 g2).state = GState.playing
    ∧ (primaryAction s g1 g2).paused = false
    ∧ (primaryAction s g1 g2).cooldown = 10 := by
  have hgo : primaryAction s g1 g2 = { reset_game s g1 g2 with cooldown := 10 } := by
    rcases h with h | h <;> simp [primaryAction, h]
  rw [hgo]
  refine ⟨rfl, rfl, ?_, rfl, rfl, ?_, rfl, rfl, rfl, rfl, rfl⟩
  · show 2 * ((HEIGHT / 2 - BIRD_HEIGHT / 2 : ℤ) : ℚ) + (BIRD_HEIGHT : ℚ) = (HEIGHT : ℚ)
    norm_num [HEIGHT, BIRD_HEIGHT]
  · intro p hp
    simp [reset_game, Pipe.make, WIDTH, PIPE_SPACING] at hp ⊢
    rcases hp with hp | hp <;> rw [hp] <;> simp

/-- A state sitting on the menu screen. -/
def menuState : GameState :=
  { bird := ⟨308, 0, 0⟩, pipes := [], coins := [], particles := [],
    score := 0, highscore := 0, state := GState.menu, paused := false, cooldown := 0 }

/-- Witness for C8: restarting from the menu zeroes the score and arms the
lockout counter. -/
theorem C8_reset_witness :
    (primaryAction menuState 200 250).score = 0
    ∧ (primaryAction menuState 200 250).cooldown = 10 :=
  ⟨(C8_reset menuState 200 250 (Or.inl rfl)).1,
   (C8_reset menuState 200 250 (Or.inl rfl)).2.2.2.2.2.2.2.2.2.2⟩

/-- C9: `flap` sets the velocity to exactly the flap impulse irrespective of
the previous velocity, so flapping twice equals flapping once. -/
theorem C9_flap_idempotent (b : Bird) :
    (b.flap).vel = FLAP_STRENGTH ∧ (b.flap).flap = b.flap := ⟨rfl, rfl⟩

/-- C10: on a fatal tick, the final score equals the pre-tick score plus the
pipe points and coin bonuses earned on that same tick, and the stored high
score is updated against exactly that final score (the increments land
before the game-over comparison). -/
theorem C10_fatal_tick_score (s : GameState) (r : TickRand)
    (h1 : s.state = GState.playing) (h2 : s.paused = false)
    (h3 : (frameUpdate s r).state = GState.gameover) :
    (frameUpdate s r).score
        = s.score
          + ((movedPipes s r).filter
              (fun p => !p.passed && decide (p.x + PIPE_WIDTH < BIRD_X))).length
          + COIN_BONUS * ((movedCoins s r).filter
              (fun c => colliderect (birdRect (movedBird s)) (coinRect c))).length
    ∧ (frameUpdate s r).highscore = max s.highscore ((frameUpdate s r).score : ℤ) := by
  have hframe : frameUpdate s r = tick s r := by simp [frameUpdate, h1, h2]
  have hfat : fatalHit s r = true := by
    by_contra hf
    have hf' : fatalHit s r = false := Bool.eq_false_iff.mpr hf
    rw [hframe] at h3
    simp [tick, hf', h1] at h3
  have hscore : (frameUpdate s r).score
      = s.score
          + ((movedPipes s r).filter
              (fun p => !p.passed && decide (p.x + PIPE_WIDTH < BIRD_X))).length
          + COIN_BONUS * ((movedCoins s r).filter
              (fun c => colliderect (birdRect (movedBird s)) (coinRect c))).length := by
    rw [hframe]
    show (coinResult s r).2.1 = _
    rw [coinResult, coinsPass_spec, pipeResult, pipesPass_spec]
  refine ⟨hscore, ?_⟩
  rw [hframe]
  have hcr : (tick s r).score = (coinResult s r).2.1 := rfl
  show (if fatalHit s r = true then
          if ((coinResult s r).2.1 : ℤ) > s.highscore then ((coinResult s r).2.1 : ℤ)
          else s.highscore
        else s.highscore) = max s.highscore ((tick s r).score : ℤ)
  rw [if_pos hfat, hcr]
  rcases le_or_lt ((coinResult s r).2.1 : ℤ) s.highscore with hle | hlt
  · rw [if_neg (by omega), max_eq_left hle]
  · rw [if_pos hlt, max_eq_right (le_of_lt hlt)]

/-- Witness for C10: the fatal floor tick of `gsFloor` keeps the tick's
score and compares the high score against it. -/
theorem C10_fatal_tick_score_witness :
    (frameUpdate gsFloor rand0).score
        = gsFloor.score
          + ((movedPipes gsFloor rand0).filter
              (fun p => !p.passed && decide (p.x + PIPE_WIDTH < BIRD_X))).length
          + COIN_BONUS * ((movedCoins gsFloor rand0).filter
              (fun c => colliderect (birdRect (movedBird gsFloor)) (coinRect c))).length
    ∧ (frameUpdate gsFloor rand0).highscore
        = max gsFloor.highscore ((frameUpdate gsFloor rand0).score : ℤ) :=
  C10_fatal_tick_score gsFloor rand0 rfl rfl (by
    have hfc : floorCeilHit (movedBird gsFloor) = true := by
      have hq : (HEIGHT : ℚ) - (FLOOR_HEIGHT : ℚ)
          ≤ (movedBird gsFloor).y + (BIRD_HEIGHT : ℚ) := by
        norm_num [movedBird, Bird.update, gsFloor, HEIGHT, FLOOR_HEIGHT, BIRD_HEIGHT, GRAVITY]
      rw [floorCeilHit]
      simp [hq]
    have hfat : fatalHit gsFloor rand0 = true := by
      rw [fatalHit, hfc, Bool.or_true]
    have hcond : gsFloor.state = GState.playing ∧ gsFloor.paused = false := ⟨rfl, rfl⟩
    unfold frameUpdate
    rw [if_pos hcond]
    show (if fatalHit gsFloor rand0 = true then GState.gameover else gsFloor.state)
        = GState.gameover
    rw [if_pos hfat])

end Flappy
